import Mathlib

/-!
# Site settings form (`client/my-sites/site-settings/form-general.jsx`)

A shallow embedding of the form-state logic of `SiteSettingsFormGeneral`:
`getFormSettings`, `componentWillMount`, `componentWillReceiveProps`,
`onChangeField` and `submitForm`, together with the JavaScript values and
objects they manipulate.

JavaScript objects are association lists with unique keys in insertion order.
Reading a property that is not there gives `undefined`, as in JavaScript.
Numbers are modelled as integers; the code under study only tests them for
truthiness and otherwise passes them on unchanged.
-/

namespace SiteSettings

/-! ## JavaScript values and objects -/

/-- A primitive JavaScript value, as found in a settings payload. -/
inductive Val where
  | undefined
  | null
  | bool (b : Bool)
  | number (n : Int)
  | string (s : String)
  deriving DecidableEq, Repr

/-- JavaScript truthiness (`ToBoolean`): `undefined`, `null`, `false`, `0` and
the empty string are falsy, every other value is truthy. -/
def Val.truthy : Val → Bool
  | .undefined => false
  | .null => false
  | .bool b => b
  | .number n => n != 0
  | .string s => s.length != 0

/-- A plain JavaScript object: own enumerable properties in insertion order. -/
abbrev Obj := List (String × Val)

/-- Property read `o[k]`: `undefined` when `o` has no own property `k`. -/
def Obj.get : Obj → String → Val
  | [], _ => .undefined
  | (k', v) :: o, k => if k' = k then v else Obj.get o k

/-- Own-property test, `k in o` for a plain object. -/
def Obj.has : Obj → String → Bool
  | [], _ => false
  | (k', _) :: o, k => if k' = k then true else Obj.has o k

/-- Property write `o[k] = v`: replaces the value of an existing property in
place, otherwise appends the property. -/
def Obj.set : Obj → String → Val → Obj
  | [], k, v => [(k, v)]
  | (k', v') :: o, k, v => if k' = k then (k, v) :: o else (k', v') :: Obj.set o k v

/-- The keys of an object, `Object.keys( o )`. -/
def Obj.keys (o : Obj) : List String := o.map Prod.fst

/-- Object spread `{ ...o, ...u }`: every own property of `u` is written onto a
copy of `o`, in order, whatever its value (an `undefined` value is copied too). -/
def Obj.assign (o u : Obj) : Obj :=
  u.foldl (fun acc p => Obj.set acc p.1 p.2) o

/-- The function `omit( object, paths )` of lodash for an array of plain
property names: a copy of `object` without the properties named in `paths`. -/
def Obj.omit (o : Obj) (paths : List String) : Obj :=
  o.filter (fun p => !(paths.contains p.1))

/-! ## Props, collaborators and the form-state store -/

/-- The site object, reduced to the properties read by the modelled methods. -/
structure Site where
  ID : Nat
  jetpack : Bool
  hasMinimumJetpackVersion : Bool
  /-- The value of `site.options.admin_url`, `none` when `site.options` is missing. -/
  options : Option String
  deriving DecidableEq, Repr

/-- A settings object as delivered by the `getSiteSettings` selector. `ref` is
the identity of the JavaScript object, which is what `!==` compares. -/
structure Settings where
  ref : Nat
  props : Obj
  deriving DecidableEq, Repr

/-- A call made by the component to one of its collaborators, in the order
in which the calls happen. -/
inductive Call where
  | noticesWarning (href : String)
  | updateFields (fields : Obj)
  | clearDirtyFields
  | clearNotices
  | saveSiteSettings (siteId : Nat) (fields : Obj)
  | markSaved
  | typeError
  deriving DecidableEq, Repr

/-- The state owned by the wrappers of the component: the form fields and
dirty-field list of the `formFields` wrapper, and the log of calls made. -/
structure Store where
  fields : Obj
  dirtyFields : List String
  log : List Call
  deriving DecidableEq, Repr

/-- The props read by the modelled methods. `fields` and `dirtyFields` are the
values the `formFields` wrapper passed down at the last render. -/
structure Props where
  site : Option Site
  settings : Option Settings
  fields : Obj
  dirtyFields : List String
  deriving DecidableEq, Repr

/-- How the promise returned by `saveSiteSettings` settles. -/
inductive PromiseResult where
  | fulfilled
  | rejected
  | pending
  deriving DecidableEq, Repr

/-- Strict inequality `a !== b` of two `settings` props: `null !== null` is
false, an object differs from `null`, two objects differ when they are not the
same object. -/
def strictNe : Option Settings → Option Settings → Bool
  | none, none => false
  | some a, some b => a.ref != b.ref
  | _, _ => true

/-- Appends a call to the log. -/
def Store.call (st : Store) (c : Call) : Store :=
  { st with log := st.log ++ [c] }

/-- Modelled from the spec: the `formFields` wrapper (`components/hoc/form-fields`)
that provides `fields`, `dirtyFields`, `updateFields` and `clearDirtyFields` is
not part of the source. Following the reconciliation policy of the spec
(`for key, value in snapshot: formState[key] = value`), `updateFields` writes
every property of its argument onto the form fields and leaves the other fields
alone. The spec makes a user edit add the key to the DirtySet but says nothing
of the kind for a snapshot, and both go through `updateFields`; whether
`updateFields` itself records the written keys as dirty is therefore the
parameter `track`, and every result below holds for both choices. -/
def updateFields (track : Bool) (u : Obj) (st : Store) : Store :=
  { fields := Obj.assign st.fields u
    dirtyFields := if track then st.dirtyFields ++ (Obj.keys u).filter (fun k => !(st.dirtyFields.contains k))
                   else st.dirtyFields
    log := st.log ++ [Call.updateFields u] }

/-- Modelled from the spec: `clearDirtyFields` of the `formFields` wrapper, not
part of the source; per the spec (`onSaveSucceeded` clears DirtySet entirely) it
empties the dirty-field list and touches no field. -/
def clearDirtyFields (st : Store) : Store :=
  { st with dirtyFields := [], log := st.log ++ [Call.clearDirtyFields] }

/-- Modelled from the spec: `markSaved` of the `protectForm` wrapper
(`lib/protect-form`), not part of the source: the signal to the navigation
guard that the form is clean. It is recorded in the log. -/
def markSaved (st : Store) : Store := st.call Call.markSaved

/-! ## The component -/

/-- The method `getFormSettings( settings )`. -/
def getFormSettings (settings : Option Obj) : Obj :=
  match settings with
  | none => []
  | some settings =>
    let formSettings : Obj :=
      [ ("blogname", settings.get "blogname"),
        ("blogdescription", settings.get "blogdescription"),
        ("lang_id", settings.get "lang_id"),
        ("blog_public", settings.get "blog_public"),
        ("timezone_string", settings.get "timezone_string"),
        ("jetpack_relatedposts_allowed", settings.get "jetpack_relatedposts_allowed"),
        ("jetpack_sync_non_public_post_stati", settings.get "jetpack_sync_non_public_post_stati"),
        ("amp_is_supported", settings.get "amp_is_supported"),
        ("amp_is_enabled", settings.get "amp_is_enabled") ]
    let formSettings :=
      if (settings.get "jetpack_relatedposts_allowed").truthy then
        ((formSettings.set "jetpack_relatedposts_enabled"
            (if (settings.get "jetpack_relatedposts_enabled").truthy then .number 1 else .number 0)).set
          "jetpack_relatedposts_show_headline" (settings.get "jetpack_relatedposts_show_headline")).set
          "jetpack_relatedposts_show_thumbnails" (settings.get "jetpack_relatedposts_show_thumbnails")
      else formSettings
    let formSettings :=
      if (settings.get "holidaysnow").truthy then
        formSettings.set "holidaysnow" (settings.get "holidaysnow")
      else formSettings
    let gmt_offset := settings.get "gmt_offset"
    match gmt_offset with
    | .string g =>
      if !(settings.get "timezone_string").truthy && g.length != 0 then
        formSettings.set "timezone_string"
          (.string ("UTC" ++ (if g.data.contains '-' then "" else "+") ++ g))
      else formSettings
    | _ => formSettings

/-- The object literal that opens `getFormSettings`: nine properties copied
from the payload, whether or not the payload has them. -/
def baseSettings (settings : Obj) : Obj :=
  [ ("blogname", settings.get "blogname"),
    ("blogdescription", settings.get "blogdescription"),
    ("lang_id", settings.get "lang_id"),
    ("blog_public", settings.get "blog_public"),
    ("timezone_string", settings.get "timezone_string"),
    ("jetpack_relatedposts_allowed", settings.get "jetpack_relatedposts_allowed"),
    ("jetpack_sync_non_public_post_stati", settings.get "jetpack_sync_non_public_post_stati"),
    ("amp_is_supported", settings.get "amp_is_supported"),
    ("amp_is_enabled", settings.get "amp_is_enabled") ]

/-- The statement `if ( settings.jetpack_relatedposts_allowed ) { ... }` of
`getFormSettings`, applied to the object built so far. -/
def withRelatedPosts (settings formSettings : Obj) : Obj :=
  if (settings.get "jetpack_relatedposts_allowed").truthy then
    ((formSettings.set "jetpack_relatedposts_enabled"
        (if (settings.get "jetpack_relatedposts_enabled").truthy then .number 1 else .number 0)).set
      "jetpack_relatedposts_show_headline" (settings.get "jetpack_relatedposts_show_headline")).set
      "jetpack_relatedposts_show_thumbnails" (settings.get "jetpack_relatedposts_show_thumbnails")
  else formSettings

/-- The statement `if ( settings.holidaysnow ) { ... }` of `getFormSettings`. -/
def withHolidaySnow (settings formSettings : Obj) : Obj :=
  if (settings.get "holidaysnow").truthy then
    formSettings.set "holidaysnow" (settings.get "holidaysnow")
  else formSettings

/-- The handling of `gmt_offset` and `timezone_string` that ends
`getFormSettings`. -/
def withTimezone (settings formSettings : Obj) : Obj :=
  match settings.get "gmt_offset" with
  | .string g =>
    if !(settings.get "timezone_string").truthy && g.length != 0 then
      formSettings.set "timezone_string"
        (.string ("UTC" ++ (if g.data.contains '-' then "" else "+") ++ g))
    else formSettings
  | _ => formSettings

/-- The `settings` prop as the argument of `getFormSettings`: `null` or the
settings object. -/
def settingsObj (settings : Option Settings) : Option Obj :=
  settings.map Settings.props

/-- The method `_showWarning( site )`. -/
def showWarning (site : Option Site) (st : Store) : Store :=
  match site with
  | none => st
  | some site =>
    match site.options with
    | none => st
    | some admin_url =>
      if site.jetpack && !site.hasMinimumJetpackVersion then
        st.call (Call.noticesWarning (admin_url ++ "plugins.php?plugin_status=upgrade"))
      else st

/-- The object literal that `componentWillMount` passes to `updateFields`. -/
def defaultFields : Obj :=
  [ ("fetchingSettings", .bool true),
    ("blogname", .string ""),
    ("blogdescription", .string ""),
    ("lang_id", .string ""),
    ("timezone_string", .string ""),
    ("blog_public", .string ""),
    ("admin_url", .string ""),
    ("jetpack_relatedposts_allowed", .bool false),
    ("jetpack_relatedposts_enabled", .bool false),
    ("jetpack_relatedposts_show_headline", .bool false),
    ("jetpack_relatedposts_show_thumbnails", .bool false),
    ("jetpack_sync_non_public_post_stati", .bool false),
    ("holidaysnow", .bool false),
    ("amp_is_supported", .bool false),
    ("amp_is_enabled", .bool false) ]

/-- The method `componentWillMount()`. -/
def componentWillMount (track : Bool) (props : Props) (st : Store) : Store :=
  let st := showWarning props.site st
  let st := updateFields track defaultFields st
  let st := clearDirtyFields st
  updateFields track (getFormSettings (settingsObj props.settings)) st

/-- The method `componentWillReceiveProps( nextProps )`; `props` is `this.props`. -/
def componentWillReceiveProps (track : Bool) (props nextProps : Props) (st : Store) : Store :=
  let st := showWarning nextProps.site st
  if strictNe nextProps.settings props.settings then
    let newState := getFormSettings (settingsObj nextProps.settings)
    let newState := Obj.omit newState nextProps.dirtyFields
    updateFields track newState st
  else st

/-- The handler returned by `onChangeField( field )`, applied to an event whose
`target.value` is `value`. -/
def onChangeField (track : Bool) (field : String) (value : Val) (st : Store) : Store :=
  updateFields track [(field, value)] st

/-- The method `submitForm()`; `result` is how the promise returned by
`saveSiteSettings` settles. Reading `site.ID` of a missing site throws. -/
def submitForm (props : Props) (result : PromiseResult) (st : Store) : Store :=
  let st := st.call Call.clearNotices
  match props.site with
  | none => st.call Call.typeError
  | some site =>
    let st := st.call (Call.saveSiteSettings site.ID props.fields)
    match result with
    | .fulfilled => markSaved (clearDirtyFields st)
    | _ => st

/-! ## The Holiday Snow option -/

/-- A moment.js date at the granularity of a day: `year()`, the zero-indexed
`month()` and the day of the month `date()`. -/
structure Moment where
  year : Int
  month : Nat
  day : Nat
  deriving DecidableEq, Repr

/-- Leap years of the Gregorian calendar. -/
def isLeapYear (year : Int) : Bool :=
  (year % 4 == 0 && year % 100 != 0) || year % 400 == 0

/-- The number of days of the zero-indexed month `month` of `year`. -/
def daysInMonth (year : Int) (month : Nat) : Nat :=
  match month with
  | 0 => 31
  | 1 => if isLeapYear year then 29 else 28
  | 2 => 31
  | 3 => 30
  | 4 => 31
  | 5 => 30
  | 6 => 31
  | 7 => 31
  | 8 => 30
  | 9 => 31
  | 10 => 30
  | 11 => 31
  | _ => 0

/-- The dates of the calendar, which are the values `moment()` can return. -/
def Moment.isCalendarDate (d : Moment) : Bool :=
  decide (d.month < 12) && decide (1 ≤ d.day) && decide (d.day ≤ daysInMonth d.year d.month)

/-- The comparison `a.isBefore( b, 'day' )` of moment.js: `a` lies on an earlier
day than `b`. -/
def Moment.isBefore (a b : Moment) : Bool :=
  decide (a.year < b.year) ||
    (a.year == b.year &&
      (decide (a.month < b.month) || (a.month == b.month && decide (a.day < b.day))))

/-- The comparison `a.isAfter( b, 'day' )` of moment.js: `a` lies on a later day
than `b`. -/
def Moment.isAfter (a b : Moment) : Bool :=
  Moment.isBefore b a

/-- The element rendered by `holidaySnowOption`: a fieldset with a legend and
one checkbox. -/
structure HolidaySnowFieldset where
  legend : String
  checkboxName : String
  checkboxValue : Val
  label : String
  deriving DecidableEq, Repr

/-- The method `holidaySnowOption()`. `today` is the value of `moment()`, and
`versionCompare` is the method `site.versionCompare`, which is not part of the
source and is taken as it comes. The result is `none` for `null`. -/
def holidaySnowOption (fields : Obj) (today : Moment) (site : Site)
    (versionCompare : String → String → Bool) : Option HolidaySnowFieldset :=
  let startDate : Moment := { year := today.year, month := 11, day := 1 }
  let endDate : Moment := { year := today.year, month := 0, day := 4 }
  if site.jetpack && versionCompare "4.0" "<" then none
  else if today.isBefore startDate && today.isAfter endDate then none
  else
    some
      { legend := "Holiday Snow"
        checkboxName := "holidaysnow"
        checkboxValue := fields.get "holidaysnow"
        label := "Show falling snow on my blog until January 4th." }

/-! ## Example data -/

/-- A WordPress.com site. -/
def siteOne : Site :=
  { ID := 1, jetpack := false, hasMinimumJetpackVersion := true,
    options := some "https://one.example.com/wp-admin/" }

/-- Another site. -/
def siteTwo : Site :=
  { ID := 2, jetpack := false, hasMinimumJetpackVersion := true,
    options := some "https://two.example.com/wp-admin/" }

/-- A form in which the user has typed a new title that is not saved yet. -/
def editedStore : Store :=
  { fields := [("blogname", .string "My edit"), ("blogdescription", .string "Old tagline"),
      ("admin_url", .string "")]
    dirtyFields := ["blogname"]
    log := [] }

/-- A form without unsaved edits. -/
def cleanStore : Store :=
  { fields := [("blogname", .string "My Site"), ("blogdescription", .string "Old tagline"),
      ("timezone_string", .string ""), ("holidaysnow", .bool false)]
    dirtyFields := []
    log := [] }

/-- Settings of the first site as delivered by the server. -/
def serverSettings : Settings :=
  { ref := 1
    props := [("blogname", .string "Server title"), ("blogdescription", .string "Server tagline")] }

/-- Settings with an empty `timezone_string` and a numeric offset. -/
def offsetSettings : Settings :=
  { ref := 2, props := [("timezone_string", .string ""), ("gmt_offset", .string "5")] }

/-- A payload that lacks `blogname`. -/
def untitledSettings : Settings :=
  { ref := 3, props := [("blogdescription", .string "Server tagline")] }

/-- A payload in which the server reports `holidaysnow` as off. -/
def snowOffSettings : Settings :=
  { ref := 4, props := [("blogname", .string "My Site"), ("holidaysnow", .bool false)] }

/-- Settings of the second site. -/
def siteTwoSettings : Settings :=
  { ref := 5
    props := [("blogname", .string "Second site"), ("blogdescription", .string "Second tagline")] }

/-- The props of a render of `site` with `settings`, reading the form state `st`. -/
def propsOf (site : Site) (settings : Option Settings) (st : Store) : Props :=
  { site := some site, settings := settings, fields := st.fields, dirtyFields := st.dirtyFields }

/-- The props of a render of the second site while the form still holds the
unsaved title typed for the first site. -/
def siteTwoProps : Props := propsOf siteTwo (some siteTwoSettings) editedStore

/-- The settings of the first site delivered once more, as a new object with
the same content. -/
def serverSettingsAgain : Settings :=
  { ref := 6, props := serverSettings.props }

/-- A Jetpack site. -/
def jetpackSite : Site :=
  { ID := 3, jetpack := true, hasMinimumJetpackVersion := true,
    options := some "https://three.example.com/wp-admin/" }

/-- The method `versionCompare` of a site that runs Jetpack 3.9: only the
comparison `'4.0', '<'` matters here, and it holds. -/
def oldVersionCompare (version operator : String) : Bool :=
  version == "4.0" && operator == "<"

/-- The method `versionCompare` of a site that runs Jetpack 4.3. -/
def newVersionCompare (_version _operator : String) : Bool := false

/-- A payload in which related posts are allowed and switched on. -/
def relatedSettings : Settings :=
  { ref := 7
    props := [("jetpack_relatedposts_allowed", .bool true),
      ("jetpack_relatedposts_enabled", .bool true)] }

/-- A payload with a named time zone next to a numeric offset. -/
def zoneSettings : Settings :=
  { ref := 8
    props := [("timezone_string", .string "Europe/Paris"), ("gmt_offset", .string "2")] }

/-! ## Lemmas about objects -/

theorem Obj.get_set_same (o : Obj) (k : String) (v : Val) : Obj.get (Obj.set o k v) k = v := by
  induction o with
  | nil => simp [Obj.set, Obj.get]
  | cons p o ih =>
    obtain ⟨k', v'⟩ := p
    by_cases h : k' = k
    · simp [Obj.set, Obj.get, h]
    · simp [Obj.set, Obj.get, h, ih]

theorem Obj.get_set_ne (o : Obj) {k' k : String} (v : Val) (h : k' ≠ k) :
    Obj.get (Obj.set o k' v) k = Obj.get o k := by
  induction o with
  | nil => simp [Obj.set, Obj.get, h]
  | cons p o ih =>
    obtain ⟨k₀, v₀⟩ := p
    by_cases h₀ : k₀ = k'
    · subst h₀
      simp [Obj.set, Obj.get, h]
    · by_cases h₁ : k₀ = k
      · subst h₁
        simp [Obj.set, Obj.get, h₀]
      · simp [Obj.set, Obj.get, h₀, h₁, ih]

theorem Obj.has_set_same (o : Obj) (k : String) (v : Val) :
    Obj.has (Obj.set o k v) k = true := by
  induction o with
  | nil => simp [Obj.set, Obj.has]
  | cons p o ih =>
    obtain ⟨k', v'⟩ := p
    by_cases h : k' = k
    · simp [Obj.set, Obj.has, h]
    · simp [Obj.set, Obj.has, h, ih]

theorem Obj.has_set_ne (o : Obj) {k' k : String} (v : Val) (h : k' ≠ k) :
    Obj.has (Obj.set o k' v) k = Obj.has o k := by
  induction o with
  | nil => simp [Obj.set, Obj.has, h]
  | cons p o ih =>
    obtain ⟨k₀, v₀⟩ := p
    by_cases h₀ : k₀ = k'
    · subst h₀
      simp [Obj.set, Obj.has, h]
    · by_cases h₁ : k₀ = k
      · subst h₁
        simp [Obj.set, Obj.has, h₀]
      · simp [Obj.set, Obj.has, h₀, h₁, ih]

theorem Obj.has_eq_true_iff (o : Obj) (k : String) : Obj.has o k = true ↔ k ∈ Obj.keys o := by
  induction o with
  | nil => simp [Obj.has, Obj.keys]
  | cons p o ih =>
    obtain ⟨k', v'⟩ := p
    by_cases h : k' = k
    · simp [Obj.has, Obj.keys, h]
    · have h' : ¬ k = k' := fun e => h e.symm
      simp only [Obj.keys] at ih
      simp [Obj.has, Obj.keys, h, h', ih]

theorem Obj.get_of_not_has (o : Obj) (k : String) (h : Obj.has o k = false) :
    Obj.get o k = .undefined := by
  induction o with
  | nil => simp [Obj.get]
  | cons p o ih =>
    obtain ⟨k', v'⟩ := p
    by_cases h' : k' = k
    · simp [Obj.has, h'] at h
    · simp only [Obj.has, h', if_false] at h
      simp [Obj.get, h', ih h]

theorem Obj.omit_cons (p : String × Val) (o : Obj) (paths : List String) :
    Obj.omit (p :: o) paths = if p.1 ∈ paths then Obj.omit o paths else p :: Obj.omit o paths := by
  by_cases h : p.1 ∈ paths <;> simp [Obj.omit, List.filter_cons, h]

theorem Obj.has_omit_of_mem (o : Obj) (paths : List String) (k : String) (h : k ∈ paths) :
    Obj.has (Obj.omit o paths) k = false := by
  induction o with
  | nil => simp [Obj.omit, Obj.has]
  | cons p o ih =>
    obtain ⟨k', v'⟩ := p
    rw [Obj.omit_cons]
    by_cases h' : k' ∈ paths
    · simp [h', ih]
    · have hk : k' ≠ k := fun e => h' (e ▸ h)
      simp [h', Obj.has, hk, ih]

theorem Obj.has_omit_of_not_mem (o : Obj) (paths : List String) (k : String) (h : k ∉ paths) :
    Obj.has (Obj.omit o paths) k = Obj.has o k := by
  induction o with
  | nil => simp [Obj.omit, Obj.has]
  | cons p o ih =>
    obtain ⟨k', v'⟩ := p
    rw [Obj.omit_cons]
    by_cases h' : k' ∈ paths
    · have hk : k' ≠ k := fun e => h (e ▸ h')
      simp [h', Obj.has, hk, ih]
    · by_cases hk : k' = k
      · subst hk
        simp [h, Obj.has]
      · simp [h', Obj.has, hk, ih]

theorem Obj.get_omit_of_not_mem (o : Obj) (paths : List String) (k : String) (h : k ∉ paths) :
    Obj.get (Obj.omit o paths) k = Obj.get o k := by
  induction o with
  | nil => simp [Obj.omit, Obj.get]
  | cons p o ih =>
    obtain ⟨k', v'⟩ := p
    rw [Obj.omit_cons]
    by_cases h' : k' ∈ paths
    · have hk : k' ≠ k := fun e => h (e ▸ h')
      simp [h', Obj.get, hk, ih]
    · by_cases hk : k' = k
      · subst hk
        simp [h, Obj.get]
      · simp [h', Obj.get, hk, ih]

theorem Obj.assign_cons (o : Obj) (p : String × Val) (u : Obj) :
    Obj.assign o (p :: u) = Obj.assign (Obj.set o p.1 p.2) u := rfl

theorem Obj.get_assign_of_not_has (o u : Obj) (k : String) (h : Obj.has u k = false) :
    Obj.get (Obj.assign o u) k = Obj.get o k := by
  induction u generalizing o with
  | nil => simp [Obj.assign]
  | cons p u ih =>
    obtain ⟨k', v'⟩ := p
    by_cases h' : k' = k
    · simp [Obj.has, h'] at h
    · simp only [Obj.has, h', if_false] at h
      rw [Obj.assign_cons, ih (Obj.set o k' v') h, Obj.get_set_ne o v' h']

theorem Obj.has_assign_of_not_has (o u : Obj) (k : String) (h : Obj.has u k = false) :
    Obj.has (Obj.assign o u) k = Obj.has o k := by
  induction u generalizing o with
  | nil => simp [Obj.assign]
  | cons p u ih =>
    obtain ⟨k', v'⟩ := p
    by_cases h' : k' = k
    · simp [Obj.has, h'] at h
    · simp only [Obj.has, h', if_false] at h
      rw [Obj.assign_cons, ih (Obj.set o k' v') h, Obj.has_set_ne o v' h']

theorem Obj.get_assign_of_has (o u : Obj) (k : String) (hu : (Obj.keys u).Nodup)
    (h : Obj.has u k = true) : Obj.get (Obj.assign o u) k = Obj.get u k := by
  induction u generalizing o with
  | nil => simp [Obj.has] at h
  | cons p u ih =>
    obtain ⟨k', v'⟩ := p
    simp only [Obj.keys, List.map_cons, List.nodup_cons] at hu
    by_cases h' : k' = k
    · subst h'
      have hnot : Obj.has u k' = false := by
        cases hh : Obj.has u k' with
        | false => rfl
        | true => exact absurd ((Obj.has_eq_true_iff u k').1 hh) hu.1
      rw [Obj.assign_cons, Obj.get_assign_of_not_has (Obj.set o k' v') u k' hnot,
        Obj.get_set_same]
      simp [Obj.get]
    · simp only [Obj.has, h', if_false] at h
      rw [Obj.assign_cons, ih (Obj.set o k' v') hu.2 h]
      simp [Obj.get, h']

theorem Obj.has_assign_of_has (o u : Obj) (k : String) (h : Obj.has u k = true) :
    Obj.has (Obj.assign o u) k = true := by
  induction u generalizing o with
  | nil => simp [Obj.has] at h
  | cons p u ih =>
    obtain ⟨k', v'⟩ := p
    rw [Obj.assign_cons]
    cases hh : Obj.has u k with
    | true => exact ih (Obj.set o k' v') hh
    | false =>
      have hk : k' = k := by
        by_cases h' : k' = k
        · exact h'
        · simp [Obj.has, h', hh] at h
      subst hk
      rw [Obj.has_assign_of_not_has (Obj.set o k' v') u k' hh]
      exact Obj.has_set_same o k' v'

theorem Obj.keys_set (o : Obj) (k : String) (v : Val) :
    Obj.keys (Obj.set o k v) = if Obj.has o k then Obj.keys o else Obj.keys o ++ [k] := by
  induction o with
  | nil => simp [Obj.set, Obj.keys, Obj.has]
  | cons p o ih =>
    obtain ⟨k', v'⟩ := p
    simp only [Obj.keys] at ih
    by_cases h : k' = k
    · simp [Obj.set, Obj.keys, Obj.has, h]
    · simp only [Obj.set, Obj.keys, Obj.has, h, if_false, List.map_cons, ih]
      split <;> simp

theorem Obj.nodup_set (o : Obj) (k : String) (v : Val) (h : (Obj.keys o).Nodup) :
    (Obj.keys (Obj.set o k v)).Nodup := by
  rw [Obj.keys_set]
  cases hh : Obj.has o k with
  | true => simpa using h
  | false =>
    have hk : k ∉ Obj.keys o := fun hm => by
      have := (Obj.has_eq_true_iff o k).2 hm
      rw [hh] at this
      exact Bool.noConfusion this
    simp only [Bool.false_eq_true, if_false]
    exact List.Nodup.append h (List.nodup_singleton k) (by simpa using hk)

theorem Obj.nodup_omit (o : Obj) (paths : List String) (h : (Obj.keys o).Nodup) :
    (Obj.keys (Obj.omit o paths)).Nodup := by
  have hs : List.Sublist (Obj.keys (Obj.omit o paths)) (Obj.keys o) := by
    simp only [Obj.keys, Obj.omit]
    exact List.Sublist.map Prod.fst (List.filter_sublist o)
  exact List.Nodup.sublist hs h

theorem Obj.has_set (o : Obj) (k' k : String) (v : Val) :
    Obj.has (Obj.set o k' v) k = (decide (k' = k) || Obj.has o k) := by
  by_cases h : k' = k
  · subst h
    simp [Obj.has_set_same]
  · simp [Obj.has_set_ne o v h, h]

theorem Obj.get_set (o : Obj) (k' k : String) (v : Val) :
    Obj.get (Obj.set o k' v) k = if k' = k then v else Obj.get o k := by
  by_cases h : k' = k
  · subst h
    simp [Obj.get_set_same]
  · simp [Obj.get_set_ne o v h, h]

theorem Obj.set_eq_self (o : Obj) (k : String) (v : Val) (hh : Obj.has o k = true)
    (hg : Obj.get o k = v) : Obj.set o k v = o := by
  induction o with
  | nil => simp [Obj.has] at hh
  | cons p o ih =>
    obtain ⟨k', v'⟩ := p
    by_cases h : k' = k
    · subst h
      simp only [Obj.get, if_true] at hg
      simp [Obj.set, hg]
    · simp only [Obj.has, h, if_false] at hh
      simp only [Obj.get, h, if_false] at hg
      simp [Obj.set, h, ih hh hg]

theorem Obj.assign_eq_self (o u : Obj)
    (h : ∀ p ∈ u, Obj.has o p.1 = true ∧ Obj.get o p.1 = p.2) : Obj.assign o u = o := by
  induction u with
  | nil => rfl
  | cons p u ih =>
    have hp := h p (List.mem_cons_self p u)
    rw [Obj.assign_cons, Obj.set_eq_self o p.1 p.2 hp.1 hp.2]
    exact ih fun q hq => h q (List.mem_cons_of_mem p hq)

theorem Obj.get_of_mem (o : Obj) (k : String) (v : Val) (hn : (Obj.keys o).Nodup)
    (hm : (k, v) ∈ o) : Obj.has o k = true ∧ Obj.get o k = v := by
  induction o with
  | nil => simp at hm
  | cons p o ih =>
    obtain ⟨k', v'⟩ := p
    simp only [Obj.keys, List.map_cons, List.nodup_cons] at hn
    rcases List.mem_cons.1 hm with he | ht
    · cases he
      simp [Obj.has, Obj.get]
    · have hk : k' ≠ k := by
        intro e
        subst e
        exact hn.1 (List.mem_map.2 ⟨(k', v), ht, rfl⟩)
      have := ih hn.2 ht
      simp [Obj.has, Obj.get, hk, this]

theorem Obj.mem_omit (o : Obj) (paths : List String) (p : String × Val) :
    p ∈ Obj.omit o paths ↔ p ∈ o ∧ p.1 ∉ paths := by
  simp [Obj.omit, List.mem_filter]

/-! ## Lemmas about `getFormSettings` -/

/-- The method `getFormSettings` is the composition of its four statements. -/
theorem getFormSettings_some (s : Obj) :
    getFormSettings (some s) =
      withTimezone s (withHolidaySnow s (withRelatedPosts s (baseSettings s))) := rfl

theorem nodup_baseSettings (s : Obj) : (Obj.keys (baseSettings s)).Nodup := by
  simp [baseSettings, Obj.keys]

theorem nodup_withRelatedPosts (s f : Obj) (h : (Obj.keys f).Nodup) :
    (Obj.keys (withRelatedPosts s f)).Nodup := by
  unfold withRelatedPosts
  split
  · exact Obj.nodup_set _ _ _ (Obj.nodup_set _ _ _ (Obj.nodup_set _ _ _ h))
  · exact h

theorem nodup_withHolidaySnow (s f : Obj) (h : (Obj.keys f).Nodup) :
    (Obj.keys (withHolidaySnow s f)).Nodup := by
  unfold withHolidaySnow
  split
  · exact Obj.nodup_set _ _ _ h
  · exact h

theorem nodup_withTimezone (s f : Obj) (h : (Obj.keys f).Nodup) :
    (Obj.keys (withTimezone s f)).Nodup := by
  unfold withTimezone
  split
  · split
    · exact Obj.nodup_set _ _ _ h
    · exact h
  · exact h

theorem nodup_getFormSettings (settings : Option Obj) :
    (Obj.keys (getFormSettings settings)).Nodup := by
  cases settings with
  | none => simp [getFormSettings, Obj.keys]
  | some s =>
    rw [getFormSettings_some]
    exact nodup_withTimezone _ _ (nodup_withHolidaySnow _ _
      (nodup_withRelatedPosts _ _ (nodup_baseSettings s)))

theorem has_baseSettings (s : Obj) (k : String) :
    Obj.has (baseSettings s) k = decide (k ∈ ["blogname", "blogdescription", "lang_id",
      "blog_public", "timezone_string", "jetpack_relatedposts_allowed",
      "jetpack_sync_non_public_post_stati", "amp_is_supported", "amp_is_enabled"]) := by
  rw [Bool.eq_iff_iff, Obj.has_eq_true_iff]
  simp [baseSettings, Obj.keys]

theorem get_baseSettings (s : Obj) (k : String) (h : Obj.has (baseSettings s) k = true) :
    Obj.get (baseSettings s) k = Obj.get s k := by
  rw [has_baseSettings] at h
  simp only [decide_eq_true_eq, List.mem_cons, List.mem_singleton, List.not_mem_nil,
    or_false] at h
  rcases h with h | h | h | h | h | h | h | h | h
  all_goals subst h
  all_goals simp [baseSettings, Obj.get]

theorem has_withRelatedPosts (s f : Obj) (k : String) :
    Obj.has (withRelatedPosts s f) k =
      (Obj.has f k || ((Obj.get s "jetpack_relatedposts_allowed").truthy &&
        decide (k ∈ ["jetpack_relatedposts_enabled", "jetpack_relatedposts_show_headline",
          "jetpack_relatedposts_show_thumbnails"]))) := by
  unfold withRelatedPosts
  split
  · rename_i h
    simp only [Obj.has_set, h, Bool.true_and]
    rw [Bool.eq_iff_iff]
    simp only [Bool.or_eq_true, decide_eq_true_eq, List.mem_cons, List.mem_singleton,
      List.not_mem_nil, or_false]
    constructor
    · rintro (h | h | h | h)
      · exact Or.inr (Or.inr (Or.inr h.symm))
      · exact Or.inr (Or.inr (Or.inl h.symm))
      · exact Or.inr (Or.inl h.symm)
      · exact Or.inl h
    · rintro (h | h | h | h)
      · exact Or.inr (Or.inr (Or.inr h))
      · exact Or.inr (Or.inr (Or.inl h.symm))
      · exact Or.inr (Or.inl h.symm)
      · exact Or.inl h.symm
  · rename_i h
    simp [h]

theorem get_withRelatedPosts_of_ne (s f : Obj) (k : String)
    (h₁ : k ≠ "jetpack_relatedposts_enabled") (h₂ : k ≠ "jetpack_relatedposts_show_headline")
    (h₃ : k ≠ "jetpack_relatedposts_show_thumbnails") :
    Obj.get (withRelatedPosts s f) k = Obj.get f k := by
  unfold withRelatedPosts
  split
  · rw [Obj.get_set_ne _ _ (Ne.symm h₃), Obj.get_set_ne _ _ (Ne.symm h₂),
      Obj.get_set_ne _ _ (Ne.symm h₁)]
  · rfl

theorem get_withRelatedPosts_of_allowed (s f : Obj)
    (h : (Obj.get s "jetpack_relatedposts_allowed").truthy = true) :
    Obj.get (withRelatedPosts s f) "jetpack_relatedposts_enabled" =
        (if (Obj.get s "jetpack_relatedposts_enabled").truthy then .number 1 else .number 0) ∧
      Obj.get (withRelatedPosts s f) "jetpack_relatedposts_show_headline" =
        Obj.get s "jetpack_relatedposts_show_headline" ∧
      Obj.get (withRelatedPosts s f) "jetpack_relatedposts_show_thumbnails" =
        Obj.get s "jetpack_relatedposts_show_thumbnails" := by
  unfold withRelatedPosts
  rw [if_pos h]
  refine ⟨?_, ?_, ?_⟩
  · rw [Obj.get_set_ne _ _ (by decide), Obj.get_set_ne _ _ (by decide), Obj.get_set_same]
  · rw [Obj.get_set_ne _ _ (by decide), Obj.get_set_same]
  · rw [Obj.get_set_same]

theorem has_withHolidaySnow (s f : Obj) (k : String) :
    Obj.has (withHolidaySnow s f) k =
      (Obj.has f k || ((Obj.get s "holidaysnow").truthy && decide (k = "holidaysnow"))) := by
  unfold withHolidaySnow
  split
  · rename_i h
    rw [Obj.has_set, h, Bool.true_and, Bool.or_comm]
    congr 1
    exact decide_eq_decide.2 eq_comm
  · rename_i h
    simp [h]

theorem get_withHolidaySnow_of_ne (s f : Obj) (k : String) (h : k ≠ "holidaysnow") :
    Obj.get (withHolidaySnow s f) k = Obj.get f k := by
  unfold withHolidaySnow
  split
  · rw [Obj.get_set_ne _ _ (Ne.symm h)]
  · rfl

theorem get_withHolidaySnow_of_truthy (s f : Obj)
    (h : (Obj.get s "holidaysnow").truthy = true) :
    Obj.get (withHolidaySnow s f) "holidaysnow" = Obj.get s "holidaysnow" := by
  unfold withHolidaySnow
  rw [if_pos h, Obj.get_set_same]

theorem has_withTimezone (s f : Obj) (k : String) (h : Obj.has f "timezone_string" = true) :
    Obj.has (withTimezone s f) k = Obj.has f k := by
  unfold withTimezone
  split
  · split
    · rw [Obj.has_set]
      by_cases hk : "timezone_string" = k
      · subst hk
        simp [h]
      · simp [hk]
    · rfl
  · rfl

theorem get_withTimezone_of_ne (s f : Obj) (k : String) (h : k ≠ "timezone_string") :
    Obj.get (withTimezone s f) k = Obj.get f k := by
  unfold withTimezone
  split
  · split
    · rw [Obj.get_set_ne _ _ (Ne.symm h)]
    · rfl
  · rfl

theorem has_getFormSettings (s : Obj) (k : String) :
    Obj.has (getFormSettings (some s)) k =
      (decide (k ∈ ["blogname", "blogdescription", "lang_id", "blog_public", "timezone_string",
          "jetpack_relatedposts_allowed", "jetpack_sync_non_public_post_stati",
          "amp_is_supported", "amp_is_enabled"]) ||
        ((Obj.get s "jetpack_relatedposts_allowed").truthy &&
          decide (k ∈ ["jetpack_relatedposts_enabled", "jetpack_relatedposts_show_headline",
            "jetpack_relatedposts_show_thumbnails"])) ||
        ((Obj.get s "holidaysnow").truthy && decide (k = "holidaysnow"))) := by
  have htz : Obj.has (withHolidaySnow s (withRelatedPosts s (baseSettings s)))
      "timezone_string" = true := by
    rw [has_withHolidaySnow, has_withRelatedPosts, has_baseSettings]
    simp
  rw [getFormSettings_some, has_withTimezone _ _ _ htz, has_withHolidaySnow,
    has_withRelatedPosts, has_baseSettings]

/-- Apart from `timezone_string` and `jetpack_relatedposts_enabled`, a property
of the derived object carries the value the payload has for it. -/
theorem get_getFormSettings_raw (s : Obj) (k : String)
    (h : Obj.has (getFormSettings (some s)) k = true)
    (h₁ : k ≠ "timezone_string") (h₂ : k ≠ "jetpack_relatedposts_enabled") :
    Obj.get (getFormSettings (some s)) k = Obj.get s k := by
  rw [getFormSettings_some, get_withTimezone_of_ne _ _ _ h₁]
  rw [has_getFormSettings] at h
  by_cases h₃ : k = "holidaysnow"
  · subst h₃
    have ht : (Obj.get s "holidaysnow").truthy = true := by
      cases hh : (Obj.get s "holidaysnow").truthy with
      | true => rfl
      | false =>
        rw [hh] at h
        revert h
        cases (Obj.get s "jetpack_relatedposts_allowed").truthy <;> decide
    exact get_withHolidaySnow_of_truthy _ _ ht
  · rw [get_withHolidaySnow_of_ne _ _ _ h₃]
    by_cases h₄ : k = "jetpack_relatedposts_show_headline"
    · subst h₄
      have ha : (Obj.get s "jetpack_relatedposts_allowed").truthy = true := by
        cases hh : (Obj.get s "jetpack_relatedposts_allowed").truthy with
        | true => rfl
        | false =>
          rw [hh] at h
          revert h
          cases (Obj.get s "holidaysnow").truthy <;> decide
      exact (get_withRelatedPosts_of_allowed s _ ha).2.1
    · by_cases h₅ : k = "jetpack_relatedposts_show_thumbnails"
      · subst h₅
        have ha : (Obj.get s "jetpack_relatedposts_allowed").truthy = true := by
          cases hh : (Obj.get s "jetpack_relatedposts_allowed").truthy with
          | true => rfl
          | false =>
            rw [hh] at h
            revert h
            cases (Obj.get s "holidaysnow").truthy <;> decide
        exact (get_withRelatedPosts_of_allowed s _ ha).2.2
      · rw [get_withRelatedPosts_of_ne _ _ _ h₂ h₄ h₅]
        apply get_baseSettings
        rw [has_baseSettings]
        simp only [Bool.or_eq_true, Bool.and_eq_true, decide_eq_true_eq, List.mem_cons,
          List.mem_singleton, List.not_mem_nil, or_false] at h ⊢
        rcases h with (h | ⟨_, h⟩) | ⟨_, h⟩
        · exact h
        · rcases h with h | h | h
          · exact absurd h h₂
          · exact absurd h h₄
          · exact absurd h h₅
        · exact absurd h h₃

/-! ## Lemmas about the component -/

theorem showWarning_fields (site : Option Site) (st : Store) :
    (showWarning site st).fields = st.fields := by
  unfold showWarning
  repeat' split
  all_goals rfl

theorem showWarning_dirtyFields (site : Option Site) (st : Store) :
    (showWarning site st).dirtyFields = st.dirtyFields := by
  unfold showWarning
  repeat' split
  all_goals rfl

theorem componentWillReceiveProps_fields (track : Bool) (props nextProps : Props) (st : Store) :
    (componentWillReceiveProps track props nextProps st).fields =
      if strictNe nextProps.settings props.settings then
        Obj.assign st.fields
          (Obj.omit (getFormSettings (settingsObj nextProps.settings)) nextProps.dirtyFields)
      else st.fields := by
  unfold componentWillReceiveProps
  split
  · simp [updateFields, showWarning_fields]
  · simp [showWarning_fields]

theorem componentWillReceiveProps_log (track : Bool) (props nextProps : Props) (st : Store) :
    (componentWillReceiveProps track props nextProps st).log =
      (showWarning nextProps.site st).log ++
        if strictNe nextProps.settings props.settings then
          [Call.updateFields
            (Obj.omit (getFormSettings (settingsObj nextProps.settings)) nextProps.dirtyFields)]
        else [] := by
  unfold componentWillReceiveProps
  split
  · simp [updateFields]
  · simp

theorem submitForm_of_site (props : Props) (site : Site) (result : PromiseResult)
    (st : Store) (h : props.site = some site) :
    submitForm props result st =
      match result with
      | .fulfilled =>
        { fields := st.fields
          dirtyFields := []
          log := st.log ++ [Call.clearNotices, Call.saveSiteSettings site.ID props.fields,
            Call.clearDirtyFields, Call.markSaved] }
      | _ =>
        { fields := st.fields
          dirtyFields := st.dirtyFields
          log := st.log ++ [Call.clearNotices, Call.saveSiteSettings site.ID props.fields] } := by
  unfold submitForm
  rw [h]
  cases result <;> simp [Store.call, clearDirtyFields, markSaved]

theorem updateFields_dirtyFields_subset (track : Bool) (u : Obj) (st : Store) (k : String)
    (h : k ∈ st.dirtyFields) : k ∈ (updateFields track u st).dirtyFields := by
  unfold updateFields
  cases track
  · simpa using h
  · simp only [if_true, List.mem_append]
    exact Or.inl h

theorem string_length_ne_zero (g : String) (h : g ≠ "") : (g.length != 0) = true := by
  obtain ⟨data⟩ := g
  cases data with
  | nil => exact absurd rfl h
  | cons c cs => simp [String.length]

theorem get_withTimezone_of_fallback (s f : Obj) (g : String)
    (htz : (Obj.get s "timezone_string").truthy = false)
    (hg : Obj.get s "gmt_offset" = .string g) (hne : g ≠ "") :
    Obj.get (withTimezone s f) "timezone_string" =
      .string ("UTC" ++ (if g.data.contains '-' then "" else "+") ++ g) := by
  unfold withTimezone
  rw [hg]
  simp only [htz, string_length_ne_zero g hne, Bool.not_false, Bool.and_self, if_true]
  exact Obj.get_set_same _ _ _

theorem showWarning_log (site : Option Site) (st : Store) :
    ∃ calls, (showWarning site st).log = st.log ++ calls ∧
      ∀ c ∈ calls, ∃ href, c = Call.noticesWarning href := by
  unfold showWarning
  split
  · exact ⟨[], by simp, by simp⟩
  · split
    · exact ⟨[], by simp, by simp⟩
    · split
      · rename_i admin_url _ _
        exact ⟨[Call.noticesWarning (admin_url ++ "plugins.php?plugin_status=upgrade")],
          by simp [Store.call], by simp⟩
      · exact ⟨[], by simp, by simp⟩

theorem has_getFormSettings_fetchingSettings (settings : Option Obj) :
    Obj.has (getFormSettings settings) "fetchingSettings" = false := by
  cases settings with
  | none => rfl
  | some s =>
    rw [has_getFormSettings]
    simp

theorem omit_getFormSettings_ne_defaultFields (settings : Option Obj) (paths : List String) :
    Obj.omit (getFormSettings settings) paths ≠ defaultFields := by
  intro h
  have h₁ : Obj.has (Obj.omit (getFormSettings settings) paths) "fetchingSettings" = false := by
    by_cases hd : "fetchingSettings" ∈ paths
    · exact Obj.has_omit_of_mem _ _ _ hd
    · rw [Obj.has_omit_of_not_mem _ _ _ hd]
      exact has_getFormSettings_fetchingSettings settings
  rw [h] at h₁
  exact absurd h₁ (by decide)

theorem dirty_keys_kept (track : Bool) (props nextProps : Props) (st : Store) (k : String)
    (hk : k ∈ nextProps.dirtyFields) :
    Obj.get (componentWillReceiveProps track props nextProps st).fields k =
      Obj.get st.fields k := by
  rw [componentWillReceiveProps_fields]
  split
  · exact Obj.get_assign_of_not_has _ _ _ (Obj.has_omit_of_mem _ _ _ hk)
  · rfl

theorem absent_keys_kept (track : Bool) (props nextProps : Props) (st : Store) (k : String)
    (hk : Obj.has (getFormSettings (settingsObj nextProps.settings)) k = false) :
    Obj.get (componentWillReceiveProps track props nextProps st).fields k =
      Obj.get st.fields k := by
  have hno : Obj.has (Obj.omit (getFormSettings (settingsObj nextProps.settings))
      nextProps.dirtyFields) k = false := by
    by_cases hd : k ∈ nextProps.dirtyFields
    · exact Obj.has_omit_of_mem _ _ _ hd
    · rw [Obj.has_omit_of_not_mem _ _ _ hd]
      exact hk
  rw [componentWillReceiveProps_fields]
  split
  · exact Obj.get_assign_of_not_has _ _ _ hno
  · rfl

theorem get_stages_timezone (s : Obj) :
    Obj.get (withHolidaySnow s (withRelatedPosts s (baseSettings s))) "timezone_string" =
      Obj.get s "timezone_string" := by
  rw [get_withHolidaySnow_of_ne _ _ _ (by decide),
    get_withRelatedPosts_of_ne _ _ _ (by decide) (by decide) (by decide)]
  exact get_baseSettings s "timezone_string" (by rw [has_baseSettings]; decide)

/-- Without the fallback, `timezone_string` is copied from the payload. -/
theorem get_getFormSettings_timezone_plain (s : Obj)
    (h : (Obj.get s "timezone_string").truthy = true ∨
      ∀ g, Obj.get s "gmt_offset" = .string g → g = "") :
    Obj.get (getFormSettings (some s)) "timezone_string" = Obj.get s "timezone_string" := by
  rw [getFormSettings_some]
  unfold withTimezone
  split
  · rename_i g hg
    split
    · rename_i hc
      simp only [Bool.and_eq_true, Bool.not_eq_true', bne_iff_ne, ne_eq] at hc
      rcases h with h | h
      · rw [h] at hc
        exact absurd hc.1 (by decide)
      · have hg' := h g hg
        subst hg'
        exact absurd rfl hc.2
    · exact get_stages_timezone s
  · exact get_stages_timezone s

/-- With the fallback, `timezone_string` is synthesized from `gmt_offset`. -/
theorem get_getFormSettings_timezone_fallback (s : Obj) (g : String)
    (htz : (Obj.get s "timezone_string").truthy = false)
    (hg : Obj.get s "gmt_offset" = .string g) (hne : g ≠ "") :
    Obj.get (getFormSettings (some s)) "timezone_string" =
      .string ("UTC" ++ (if g.data.contains '-' then "" else "+") ++ g) := by
  rw [getFormSettings_some]
  exact get_withTimezone_of_fallback s _ g htz hg hne

/-- When the key is there, `jetpack_relatedposts_enabled` is 1 or 0. -/
theorem get_getFormSettings_enabled (s : Obj)
    (h : Obj.has (getFormSettings (some s)) "jetpack_relatedposts_enabled" = true) :
    Obj.get (getFormSettings (some s)) "jetpack_relatedposts_enabled" =
      if (Obj.get s "jetpack_relatedposts_enabled").truthy then .number 1 else .number 0 := by
  have ha : (Obj.get s "jetpack_relatedposts_allowed").truthy = true := by
    rw [has_getFormSettings] at h
    cases hh : (Obj.get s "jetpack_relatedposts_allowed").truthy with
    | true => rfl
    | false =>
      rw [hh] at h
      revert h
      cases (Obj.get s "holidaysnow").truthy <;> decide
  rw [getFormSettings_some, get_withTimezone_of_ne _ _ _ (by decide),
    get_withHolidaySnow_of_ne _ _ _ (by decide)]
  exact (get_withRelatedPosts_of_allowed s _ ha).1

/-! ## Reconciliation of a settings snapshot with the form state -/

/-- C1, dirty-field protection: for every key `k` of the dirty fields handed to
`componentWillReceiveProps`, the only call the method makes to `updateFields`
carries `getFormSettings( nextProps.settings )` without the dirty keys, that
object has no property `k`, and the form value of `k` (and whether the form has
the key at all) is the same after the call as before, whatever the snapshot
holds for `k`. -/
theorem dirty_field_protection (track : Bool) (props nextProps : Props) (st : Store)
    (k : String) (hk : k ∈ nextProps.dirtyFields) :
    (componentWillReceiveProps track props nextProps st).log =
        (showWarning nextProps.site st).log ++
          (if strictNe nextProps.settings props.settings then
            [Call.updateFields (Obj.omit (getFormSettings (settingsObj nextProps.settings))
              nextProps.dirtyFields)]
          else []) ∧
      Obj.has (Obj.omit (getFormSettings (settingsObj nextProps.settings))
        nextProps.dirtyFields) k = false ∧
      Obj.get (componentWillReceiveProps track props nextProps st).fields k =
        Obj.get st.fields k ∧
      Obj.has (componentWillReceiveProps track props nextProps st).fields k =
        Obj.has st.fields k := by
  have hno := Obj.has_omit_of_mem (getFormSettings (settingsObj nextProps.settings))
    nextProps.dirtyFields k hk
  refine ⟨componentWillReceiveProps_log track props nextProps st, hno, ?_, ?_⟩
  · rw [componentWillReceiveProps_fields]
    split
    · exact Obj.get_assign_of_not_has _ _ _ hno
    · rfl
  · rw [componentWillReceiveProps_fields]
    split
    · exact Obj.has_assign_of_not_has _ _ _ hno
    · rfl

/-- Witness of C1: the user has edited `blogname`; a snapshot with another
`blogname` arrives and the edit stays, while the clean tagline is replaced. -/
theorem dirty_field_protection_witness :
    "blogname" ∈ (propsOf siteOne (some serverSettings) editedStore).dirtyFields ∧
      Obj.get serverSettings.props "blogname" ≠ Obj.get editedStore.fields "blogname" ∧
      Obj.get (componentWillReceiveProps true (propsOf siteOne none editedStore)
        (propsOf siteOne (some serverSettings) editedStore) editedStore).fields "blogname" =
        .string "My edit" :=
  ⟨by decide, by decide,
    (dirty_field_protection true (propsOf siteOne none editedStore)
      (propsOf siteOne (some serverSettings) editedStore) editedStore "blogname"
      (by decide)).2.2.1⟩

/-- C2 as stated fails: with an empty `timezone_string` and `gmt_offset` `'5'`
in the snapshot, `timezone_string` is clean and present in the derived
FieldSet, yet after `componentWillReceiveProps` the form holds `'UTC+5'` while
the snapshot's value for the key is `''`. Likewise a snapshot with
`jetpack_relatedposts_enabled: true` leaves the number `1` in the form. -/
theorem clean_field_sync_counterexample :
    "timezone_string" ∉ (propsOf siteOne (some offsetSettings) cleanStore).dirtyFields ∧
      Obj.has (getFormSettings (some offsetSettings.props)) "timezone_string" = true ∧
      strictNe (some offsetSettings) none = true ∧
      Obj.get offsetSettings.props "timezone_string" = .string "" ∧
      Obj.get (componentWillReceiveProps true (propsOf siteOne none cleanStore)
        (propsOf siteOne (some offsetSettings) cleanStore) cleanStore).fields
        "timezone_string" = .string "UTC+5" ∧
      Obj.get (componentWillReceiveProps false (propsOf siteOne none cleanStore)
        (propsOf siteOne (some offsetSettings) cleanStore) cleanStore).fields
        "timezone_string" = .string "UTC+5" ∧
      "jetpack_relatedposts_enabled" ∉
        (propsOf siteOne (some relatedSettings) cleanStore).dirtyFields ∧
      Obj.has (getFormSettings (some relatedSettings.props))
        "jetpack_relatedposts_enabled" = true ∧
      strictNe (some relatedSettings) none = true ∧
      Obj.get relatedSettings.props "jetpack_relatedposts_enabled" = .bool true ∧
      Obj.get (componentWillReceiveProps true (propsOf siteOne none cleanStore)
        (propsOf siteOne (some relatedSettings) cleanStore) cleanStore).fields
        "jetpack_relatedposts_enabled" = .number 1 ∧
      Obj.get (componentWillReceiveProps false (propsOf siteOne none cleanStore)
        (propsOf siteOne (some relatedSettings) cleanStore) cleanStore).fields
        "jetpack_relatedposts_enabled" = .number 1 := by
  decide

/-- C2, amended: when the `settings` prop is a new object `s`, every key `k`
that is not dirty and is a property of the FieldSet derived by
`getFormSettings` has, after `componentWillReceiveProps`, the value it has in
that derived FieldSet. In terms of `s` that value is: `s[k]` for every key other
than `timezone_string` and `jetpack_relatedposts_enabled`; for `timezone_string`
it is `s.timezone_string` when that is truthy or `gmt_offset` is not a non-empty
string, and `'UTC'`, then `'+'` unless the offset contains `'-'`, then the
offset, when `timezone_string` is falsy and `gmt_offset` is a non-empty string;
for `jetpack_relatedposts_enabled` it is `1` when `s.jetpack_relatedposts_enabled`
is truthy and `0` otherwise. -/
theorem clean_field_sync (track : Bool) (props nextProps : Props) (st : Store) (k : String)
    (hnew : strictNe nextProps.settings props.settings = true)
    (hk : k ∉ nextProps.dirtyFields)
    (hin : Obj.has (getFormSettings (settingsObj nextProps.settings)) k = true) :
    Obj.get (componentWillReceiveProps track props nextProps st).fields k =
        Obj.get (getFormSettings (settingsObj nextProps.settings)) k ∧
      (k ≠ "timezone_string" → k ≠ "jetpack_relatedposts_enabled" →
        ∀ s : Settings, nextProps.settings = some s →
          Obj.get (componentWillReceiveProps track props nextProps st).fields k =
            Obj.get s.props k) ∧
      (k = "timezone_string" → ∀ s : Settings, nextProps.settings = some s →
        (((Obj.get s.props "timezone_string").truthy = true ∨
            ∀ g, Obj.get s.props "gmt_offset" = .string g → g = "") →
          Obj.get (componentWillReceiveProps track props nextProps st).fields k =
            Obj.get s.props "timezone_string") ∧
        (∀ g, (Obj.get s.props "timezone_string").truthy = false →
          Obj.get s.props "gmt_offset" = .string g → g ≠ "" →
          Obj.get (componentWillReceiveProps track props nextProps st).fields k =
            .string ("UTC" ++ (if g.data.contains '-' then "" else "+") ++ g))) ∧
      (k = "jetpack_relatedposts_enabled" → ∀ s : Settings, nextProps.settings = some s →
        Obj.get (componentWillReceiveProps track props nextProps st).fields k =
          if (Obj.get s.props "jetpack_relatedposts_enabled").truthy then .number 1
          else .number 0) := by
  have hget : Obj.get (componentWillReceiveProps track props nextProps st).fields k =
      Obj.get (getFormSettings (settingsObj nextProps.settings)) k := by
    rw [componentWillReceiveProps_fields, if_pos hnew,
      Obj.get_assign_of_has _ _ _ (Obj.nodup_omit _ _ (nodup_getFormSettings _))
        (by rw [Obj.has_omit_of_not_mem _ _ _ hk]; exact hin),
      Obj.get_omit_of_not_mem _ _ _ hk]
  refine ⟨hget, ?_, ?_, ?_⟩
  · intro h₁ h₂ s hs
    rw [hget]
    rw [hs] at hin ⊢
    exact get_getFormSettings_raw s.props k hin h₁ h₂
  · intro hkz s hs
    rw [hget]
    subst hkz
    rw [hs]
    constructor
    · intro h
      exact get_getFormSettings_timezone_plain s.props h
    · intro g htz hg hne
      exact get_getFormSettings_timezone_fallback s.props g htz hg hne
  · intro hke s hs
    rw [hget]
    subst hke
    rw [hs] at hin ⊢
    exact get_getFormSettings_enabled s.props hin

/-- Witness of C2, amended: the clean tagline takes the value of the snapshot;
a named time zone is taken as it is although an offset is there too; an empty
time zone with offset `'5'` becomes `'UTC+5'`; and related posts switched on
become `1`. -/
theorem clean_field_sync_witness :
    strictNe (propsOf siteOne (some serverSettings) editedStore).settings
        (propsOf siteOne none editedStore).settings = true ∧
      "blogdescription" ∉ (propsOf siteOne (some serverSettings) editedStore).dirtyFields ∧
      Obj.has (getFormSettings (settingsObj
        (propsOf siteOne (some serverSettings) editedStore).settings)) "blogdescription" = true ∧
      Obj.get (componentWillReceiveProps true (propsOf siteOne none editedStore)
        (propsOf siteOne (some serverSettings) editedStore) editedStore).fields
        "blogdescription" = .string "Server tagline" ∧
      Obj.get (componentWillReceiveProps true (propsOf siteOne none cleanStore)
        (propsOf siteOne (some zoneSettings) cleanStore) cleanStore).fields
        "timezone_string" = .string "Europe/Paris" ∧
      Obj.get (componentWillReceiveProps true (propsOf siteOne none cleanStore)
        (propsOf siteOne (some offsetSettings) cleanStore) cleanStore).fields
        "timezone_string" = .string "UTC+5" ∧
      Obj.get (componentWillReceiveProps true (propsOf siteOne none cleanStore)
        (propsOf siteOne (some relatedSettings) cleanStore) cleanStore).fields
        "jetpack_relatedposts_enabled" = .number 1 :=
  ⟨by decide, by decide, by decide,
    ((clean_field_sync true (propsOf siteOne none editedStore)
      (propsOf siteOne (some serverSettings) editedStore) editedStore "blogdescription"
      (by decide) (by decide) (by decide)).2.1 (by decide) (by decide) serverSettings
      rfl).trans (by decide),
    (((clean_field_sync true (propsOf siteOne none cleanStore)
      (propsOf siteOne (some zoneSettings) cleanStore) cleanStore "timezone_string"
      (by decide) (by decide) (by decide)).2.2.1 rfl zoneSettings rfl).1
      (Or.inl (by decide))).trans (by decide),
    (((clean_field_sync true (propsOf siteOne none cleanStore)
      (propsOf siteOne (some offsetSettings) cleanStore) cleanStore "timezone_string"
      (by decide) (by decide) (by decide)).2.2.1 rfl offsetSettings rfl).2 "5"
      (by decide) (by decide) (by decide)).trans (by decide),
    ((clean_field_sync true (propsOf siteOne none cleanStore)
      (propsOf siteOne (some relatedSettings) cleanStore) cleanStore
      "jetpack_relatedposts_enabled" (by decide) (by decide) (by decide)).2.2.2 rfl
      relatedSettings rfl).trans (by decide)⟩

/-- C3 as stated fails: the payload has no `blogname`, the form holds the clean
title `'My Site'`, and `componentWillReceiveProps` overwrites it with
`undefined`: `getFormSettings` copies `settings.blogname` into its result
whether or not the payload has the key. -/
theorem absent_key_counterexample :
    Obj.has untitledSettings.props "blogname" = false ∧
      Obj.get cleanStore.fields "blogname" = .string "My Site" ∧
      Obj.has (getFormSettings (some untitledSettings.props)) "blogname" = true ∧
      Obj.get (componentWillReceiveProps true (propsOf siteOne none cleanStore)
        (propsOf siteOne (some untitledSettings) cleanStore) cleanStore).fields "blogname" =
        .undefined ∧
      Obj.get (componentWillReceiveProps false (propsOf siteOne none cleanStore)
        (propsOf siteOne (some untitledSettings) cleanStore) cleanStore).fields "blogname" =
        .undefined := by
  decide

/-- C3, amended: a key that is not a property of the FieldSet derived by
`getFormSettings` is not written by `componentWillReceiveProps`: the form keeps
its value for the key, and the key is in the form after the call exactly when
it was before. -/
theorem absent_key_untouched (track : Bool) (props nextProps : Props) (st : Store)
    (k : String)
    (hk : Obj.has (getFormSettings (settingsObj nextProps.settings)) k = false) :
    Obj.get (componentWillReceiveProps track props nextProps st).fields k =
        Obj.get st.fields k ∧
      Obj.has (componentWillReceiveProps track props nextProps st).fields k =
        Obj.has st.fields k := by
  have hno : Obj.has (Obj.omit (getFormSettings (settingsObj nextProps.settings))
      nextProps.dirtyFields) k = false := by
    by_cases hd : k ∈ nextProps.dirtyFields
    · exact Obj.has_omit_of_mem _ _ _ hd
    · rw [Obj.has_omit_of_not_mem _ _ _ hd]
      exact hk
  constructor
  · rw [componentWillReceiveProps_fields]
    split
    · exact Obj.get_assign_of_not_has _ _ _ hno
    · rfl
  · rw [componentWillReceiveProps_fields]
    split
    · exact Obj.has_assign_of_not_has _ _ _ hno
    · rfl

/-- Witness of C3, amended: the server reports `holidaysnow` as off, so
`getFormSettings` leaves the key out and the form keeps its value for it. -/
theorem absent_key_untouched_witness :
    Obj.has (getFormSettings (settingsObj
        (propsOf siteOne (some snowOffSettings) cleanStore).settings)) "holidaysnow" = false ∧
      Obj.get (componentWillReceiveProps true (propsOf siteOne none cleanStore)
        (propsOf siteOne (some snowOffSettings) cleanStore) cleanStore).fields "holidaysnow" =
        Obj.get cleanStore.fields "holidaysnow" :=
  ⟨by decide,
    (absent_key_untouched true (propsOf siteOne none cleanStore)
      (propsOf siteOne (some snowOffSettings) cleanStore) cleanStore "holidaysnow"
      (by decide)).1⟩

/-! ## Saving the form -/

/-- C4, no clear on failure: when the promise returned by `saveSiteSettings`
is rejected (or never settles), `submitForm` leaves the form fields and the
dirty fields exactly as they were, and the calls it makes contain neither
`clearDirtyFields` nor `markSaved` nor any `updateFields`. -/
theorem no_clear_on_failure (props : Props) (st : Store) :
    ((submitForm props .rejected st).fields = st.fields ∧
      (submitForm props .rejected st).dirtyFields = st.dirtyFields ∧
      ∃ calls, (submitForm props .rejected st).log = st.log ++ calls ∧
        Call.clearDirtyFields ∉ calls ∧ Call.markSaved ∉ calls ∧
        ∀ u, Call.updateFields u ∉ calls) ∧
    ((submitForm props .pending st).fields = st.fields ∧
      (submitForm props .pending st).dirtyFields = st.dirtyFields ∧
      ∃ calls, (submitForm props .pending st).log = st.log ++ calls ∧
        Call.clearDirtyFields ∉ calls ∧ Call.markSaved ∉ calls ∧
        ∀ u, Call.updateFields u ∉ calls) := by
  cases hs : props.site with
  | none =>
    refine ⟨⟨?_, ?_, [Call.clearNotices, Call.typeError], ?_, ?_, ?_, ?_⟩,
      ⟨?_, ?_, [Call.clearNotices, Call.typeError], ?_, ?_, ?_, ?_⟩⟩
    all_goals simp [submitForm, hs, Store.call]
  | some site =>
    refine ⟨⟨?_, ?_, [Call.clearNotices, Call.saveSiteSettings site.ID props.fields],
        ?_, ?_, ?_, ?_⟩,
      ⟨?_, ?_, [Call.clearNotices, Call.saveSiteSettings site.ID props.fields],
        ?_, ?_, ?_, ?_⟩⟩
    all_goals simp [submitForm_of_site props site _ st hs]

/-- C5 as stated fails: the user ticks `holidaysnow`, the save succeeds and
the dirty fields are empty; the next snapshot contains `holidaysnow` with the
different value `false`, and the form still holds `true`, because
`getFormSettings` leaves a falsy `holidaysnow` out of the derived FieldSet. -/
theorem clear_on_success_counterexample :
    (submitForm (propsOf siteOne none cleanStore) .fulfilled
        (onChangeField true "holidaysnow" (.bool true) cleanStore)).dirtyFields = [] ∧
      Obj.has snowOffSettings.props "holidaysnow" = true ∧
      Obj.get snowOffSettings.props "holidaysnow" = .bool false ∧
      Obj.get (submitForm (propsOf siteOne none cleanStore) .fulfilled
        (onChangeField true "holidaysnow" (.bool true) cleanStore)).fields "holidaysnow" =
        .bool true ∧
      strictNe (some snowOffSettings) none = true ∧
      Obj.get (componentWillReceiveProps true (propsOf siteOne none cleanStore)
        (propsOf siteOne (some snowOffSettings)
          (submitForm (propsOf siteOne none cleanStore) .fulfilled
            (onChangeField true "holidaysnow" (.bool true) cleanStore)))
        (submitForm (propsOf siteOne none cleanStore) .fulfilled
          (onChangeField true "holidaysnow" (.bool true) cleanStore))).fields "holidaysnow" =
        .bool true := by
  decide

/-- C5, amended: after the user has edited `field` and the save started by
`submitForm` has resolved, the dirty fields are empty, the calls made are
`clearNotices`, `saveSiteSettings`, `clearDirtyFields` and `markSaved` in this
order and no form value has changed; a subsequent new settings object whose
derived FieldSet (`getFormSettings`) contains `field` then sets the form value
of `field` to its value in the derived FieldSet. -/
theorem clear_on_success (track : Bool) (props thisProps nextProps : Props) (site : Site)
    (st : Store) (field : String) (value : Val)
    (hsite : props.site = some site)
    (hdirty : nextProps.dirtyFields =
      (submitForm props .fulfilled (onChangeField track field value st)).dirtyFields)
    (hnew : strictNe nextProps.settings thisProps.settings = true)
    (hin : Obj.has (getFormSettings (settingsObj nextProps.settings)) field = true) :
    Obj.get (onChangeField track field value st).fields field = value ∧
      (track = true → field ∈ (onChangeField track field value st).dirtyFields) ∧
      (submitForm props .fulfilled (onChangeField track field value st)).dirtyFields = [] ∧
      (submitForm props .fulfilled (onChangeField track field value st)).log =
        (onChangeField track field value st).log ++
          [Call.clearNotices, Call.saveSiteSettings site.ID props.fields,
            Call.clearDirtyFields, Call.markSaved] ∧
      (submitForm props .fulfilled (onChangeField track field value st)).fields =
        (onChangeField track field value st).fields ∧
      Obj.get (componentWillReceiveProps track thisProps nextProps
        (submitForm props .fulfilled (onChangeField track field value st))).fields field =
        Obj.get (getFormSettings (settingsObj nextProps.settings)) field := by
  have hsub := submitForm_of_site props site .fulfilled (onChangeField track field value st) hsite
  simp only at hsub
  have hd : (submitForm props .fulfilled (onChangeField track field value st)).dirtyFields =
      [] := by rw [hsub]
  refine ⟨?_, ?_, hd, by rw [hsub], by rw [hsub], ?_⟩
  · simp only [onChangeField, updateFields, Obj.assign, List.foldl_cons, List.foldl_nil]
    exact Obj.get_set_same _ _ _
  · intro ht
    subst ht
    simp only [onChangeField, updateFields, Obj.keys, if_true, List.map_cons, List.map_nil,
      List.mem_append]
    by_cases hm : field ∈ st.dirtyFields
    · exact Or.inl hm
    · right
      simp [List.filter_cons, hm]
  · rw [componentWillReceiveProps_fields, if_pos hnew, hdirty, hd]
    have hnil : ∀ o : Obj, Obj.omit o [] = o := fun o => by simp [Obj.omit]
    rw [hnil, Obj.get_assign_of_has _ _ _ (nodup_getFormSettings _) hin]

/-- Witness of C5, amended: the title is edited and saved, then a snapshot with
another title arrives and the form takes the title of the snapshot. -/
theorem clear_on_success_witness :
    (propsOf siteOne none cleanStore).site = some siteOne ∧
      strictNe (some serverSettings) none = true ∧
      Obj.has (getFormSettings (some serverSettings.props)) "blogname" = true ∧
      Obj.get (componentWillReceiveProps true (propsOf siteOne none cleanStore)
        { site := some siteOne, settings := some serverSettings, fields := cleanStore.fields,
          dirtyFields := [] }
        (submitForm (propsOf siteOne none cleanStore) .fulfilled
          (onChangeField true "blogname" (.string "Typed") cleanStore))).fields "blogname" =
        .string "Server title" :=
  ⟨rfl, by decide, by decide,
    (clear_on_success true (propsOf siteOne none cleanStore) (propsOf siteOne none cleanStore)
      { site := some siteOne, settings := some serverSettings, fields := cleanStore.fields,
        dirtyFields := [] }
      siteOne cleanStore "blogname" (.string "Typed") rfl (by decide) (by decide)
      (by decide)).2.2.2.2.2.trans (by decide)⟩

/-- C6, save completeness: for a form rendered for `site`, `submitForm` calls
`saveSiteSettings` once, right after `clearNotices`, with `site.ID` and the
whole `fields` mapping of its props (the form state handed down by the
wrapper), so every key of the form state is submitted with its current value,
whether or not the key is among the dirty fields. -/
theorem save_completeness (props : Props) (site : Site) (result : PromiseResult) (st : Store)
    (hsite : props.site = some site) :
    ∃ calls, (submitForm props result st).log =
        st.log ++ [Call.clearNotices, Call.saveSiteSettings site.ID props.fields] ++ calls ∧
      (∀ (n : Nat) (payload : Obj), Call.saveSiteSettings n payload ∉ calls) ∧
      ∀ k, Obj.has props.fields k = true →
        ∃ payload, Call.saveSiteSettings site.ID payload ∈ (submitForm props result st).log ∧
          Obj.has payload k = true ∧ Obj.get payload k = Obj.get props.fields k := by
  rw [submitForm_of_site props site result st hsite]
  cases result with
  | fulfilled =>
    refine ⟨[Call.clearDirtyFields, Call.markSaved], by simp, by simp, ?_⟩
    intro k hk
    exact ⟨props.fields, by simp, hk, rfl⟩
  | rejected =>
    refine ⟨[], by simp, by simp, ?_⟩
    intro k hk
    exact ⟨props.fields, by simp, hk, rfl⟩
  | pending =>
    refine ⟨[], by simp, by simp, ?_⟩
    intro k hk
    exact ⟨props.fields, by simp, hk, rfl⟩

/-- Witness of C6: the form with an unsaved title is submitted; the payload is
the whole form state, the clean tagline as well as the dirty title. -/
theorem save_completeness_witness :
    (propsOf siteOne none editedStore).site = some siteOne ∧
      ∃ calls, (submitForm (propsOf siteOne none editedStore) .fulfilled editedStore).log =
        editedStore.log ++ [Call.clearNotices, Call.saveSiteSettings siteOne.ID
          (propsOf siteOne none editedStore).fields] ++ calls :=
  ⟨rfl,
    (save_completeness (propsOf siteOne none editedStore) siteOne .fulfilled editedStore
      rfl).imp fun _ h => h.1⟩

/-! ## Derivation of the FieldSet from a settings payload -/

/-- C7, timezone fallback: for a payload whose `timezone_string` is the empty
string and whose `gmt_offset` is a non-empty string `g`, `getFormSettings`
returns `timezone_string` equal to `'UTC'` followed by `g` when `g` contains
`'-'`, and to `'UTC+'` followed by `g` when `g` contains no `'-'`, which
covers every unsigned `g`. -/
theorem timezone_fallback (s : Obj) (g : String)
    (htz : Obj.get s "timezone_string" = .string "")
    (hg : Obj.get s "gmt_offset" = .string g) (hne : g ≠ "") :
    (g.data.contains '-' = true →
        Obj.get (getFormSettings (some s)) "timezone_string" = .string ("UTC" ++ g)) ∧
      (g.data.contains '-' = false →
        Obj.get (getFormSettings (some s)) "timezone_string" = .string ("UTC+" ++ g)) := by
  have ht : (Obj.get s "timezone_string").truthy = false := by rw [htz]; rfl
  have h := get_withTimezone_of_fallback s
    (withHolidaySnow s (withRelatedPosts s (baseSettings s))) g ht hg hne
  rw [← getFormSettings_some] at h
  constructor
  · intro hc
    rw [h, hc]
    simp
  · intro hc
    rw [h, hc]
    simp

/-- Witness of C7: `gmt_offset` `'-5'` gives `'UTC-5'` and `gmt_offset` `'5'`
gives `'UTC+5'`. -/
theorem timezone_fallback_witness :
    Obj.get (getFormSettings (some [("timezone_string", .string ""),
        ("gmt_offset", .string "-5")])) "timezone_string" = .string "UTC-5" ∧
      Obj.get (getFormSettings (some [("timezone_string", .string ""),
        ("gmt_offset", .string "5")])) "timezone_string" = .string "UTC+5" :=
  ⟨(timezone_fallback [("timezone_string", .string ""), ("gmt_offset", .string "-5")] "-5"
      (by decide) (by decide) (by decide)).1 (by decide),
    (timezone_fallback [("timezone_string", .string ""), ("gmt_offset", .string "5")] "5"
      (by decide) (by decide) (by decide)).2 (by decide)⟩

/-- C8 as stated fails: the offset `'+5'` carries its own sign, and
`getFormSettings` still inserts a `'+'`, giving `'UTC++5'` and not `'UTC+5'`. -/
theorem timezone_sign_counterexample :
    Obj.get (getFormSettings (some [("timezone_string", .string ""),
        ("gmt_offset", .string "+5")])) "timezone_string" = .string "UTC++5" ∧
      Obj.get (getFormSettings (some [("timezone_string", .string ""),
        ("gmt_offset", .string "+5")])) "timezone_string" ≠ .string "UTC+5" := by
  decide

/-- C8, amended: for a payload whose `timezone_string` is falsy and whose
`gmt_offset` is a non-empty string, the synthesized `timezone_string` is `'UTC'`
followed by the offset unchanged whenever the offset contains a `'-'`, and a
`'+'` is inserted between `'UTC'` and the offset whenever the offset contains no
`'-'`, also when the offset starts with a `'+'` of its own. -/
theorem timezone_sign (s : Obj) (g : String)
    (htz : (Obj.get s "timezone_string").truthy = false)
    (hg : Obj.get s "gmt_offset" = .string g) (hne : g ≠ "") :
    Obj.get (getFormSettings (some s)) "timezone_string" =
        .string ("UTC" ++ (if g.data.contains '-' then "" else "+") ++ g) ∧
      (∀ r : String, g = "+" ++ r → r.data.contains '-' = false →
        Obj.get (getFormSettings (some s)) "timezone_string" = .string ("UTC++" ++ r)) := by
  have h := get_withTimezone_of_fallback s
    (withHolidaySnow s (withRelatedPosts s (baseSettings s))) g htz hg hne
  rw [← getFormSettings_some] at h
  refine ⟨h, ?_⟩
  intro r hr hc
  have hc' : g.data.contains '-' = false := by
    rw [hr]
    have : ("+" ++ r).data = '+' :: r.data := rfl
    rw [this]
    rw [List.contains_cons, hc]
    decide
  rw [h, hc', hr]
  simp only [Bool.false_eq_true, if_false]
  congr 1

/-- Witness of C8, amended: `'-5.5'` is kept as it is, `'+5'` gets a second
`'+'`. -/
theorem timezone_sign_witness :
    Obj.get (getFormSettings (some [("gmt_offset", .string "-5.5")])) "timezone_string" =
        .string "UTC-5.5" ∧
      Obj.get (getFormSettings (some [("timezone_string", .string ""),
        ("gmt_offset", .string "+5")])) "timezone_string" = .string "UTC++5" :=
  ⟨(timezone_sign [("gmt_offset", .string "-5.5")] "-5.5" (by decide) (by decide)
      (by decide)).1.trans (by decide),
    (timezone_sign [("timezone_string", .string ""), ("gmt_offset", .string "+5")] "+5"
      (by decide) (by decide) (by decide)).2 "5" (by decide) (by decide)⟩

/-- C9, conditional field inclusion: each of `jetpack_relatedposts_enabled`,
`jetpack_relatedposts_show_headline` and `jetpack_relatedposts_show_thumbnails`
is a property of the result of `getFormSettings` exactly when the payload is
there and its `jetpack_relatedposts_allowed` is true (truthy); when it is
`false` or missing, the three keys are absent from the result, whatever the
payload holds for them. -/
theorem conditional_field_inclusion (settings : Option Obj) :
    (∀ k ∈ ["jetpack_relatedposts_enabled", "jetpack_relatedposts_show_headline",
        "jetpack_relatedposts_show_thumbnails"],
        (Obj.has (getFormSettings settings) k = true ↔
          ∃ s, settings = some s ∧
            (Obj.get s "jetpack_relatedposts_allowed").truthy = true)) ∧
      (∀ s, settings = some s →
        (Obj.get s "jetpack_relatedposts_allowed" = .bool false ∨
          Obj.has s "jetpack_relatedposts_allowed" = false) →
        ∀ k ∈ ["jetpack_relatedposts_enabled", "jetpack_relatedposts_show_headline",
          "jetpack_relatedposts_show_thumbnails"],
          Obj.has (getFormSettings settings) k = false) := by
  have key : ∀ (s : Obj), ∀ k ∈ ["jetpack_relatedposts_enabled",
      "jetpack_relatedposts_show_headline", "jetpack_relatedposts_show_thumbnails"],
      Obj.has (getFormSettings (some s)) k =
        (Obj.get s "jetpack_relatedposts_allowed").truthy := by
    intro s k hk
    rw [has_getFormSettings]
    simp only [List.mem_cons, List.mem_singleton, List.not_mem_nil, or_false] at hk
    rcases hk with hk | hk | hk
    all_goals subst hk
    all_goals simp
  constructor
  · intro k hk
    cases settings with
    | none => simp [getFormSettings, Obj.has]
    | some s =>
      rw [key s k hk]
      constructor
      · intro h
        exact ⟨s, rfl, h⟩
      · rintro ⟨s', hs, h⟩
        cases hs
        exact h
  · intro s hs hfalse k hk
    subst hs
    rw [key s k hk]
    rcases hfalse with h | h
    · rw [h]
      rfl
    · rw [Obj.get_of_not_has _ _ h]
      rfl

/-! ## Change of the target site -/

/-- C10 as stated fails: the form holds an unsaved title typed for the first
site; props for the second site arrive with the settings of that site, and
`componentWillReceiveProps` keeps `blogname` dirty with the value typed for the
first site, calls neither `clearDirtyFields` nor `updateFields` with the blank
defaults, and only merges the clean tagline. -/
theorem site_change_counterexample :
    (propsOf siteOne (some serverSettings) editedStore).site ≠ siteTwoProps.site ∧
      "blogname" ∈ (componentWillReceiveProps true
        (propsOf siteOne (some serverSettings) editedStore) siteTwoProps
        editedStore).dirtyFields ∧
      "blogname" ∈ (componentWillReceiveProps false
        (propsOf siteOne (some serverSettings) editedStore) siteTwoProps
        editedStore).dirtyFields ∧
      Obj.get (componentWillReceiveProps true
        (propsOf siteOne (some serverSettings) editedStore) siteTwoProps
        editedStore).fields "blogname" = .string "My edit" ∧
      Obj.get (componentWillReceiveProps false
        (propsOf siteOne (some serverSettings) editedStore) siteTwoProps
        editedStore).fields "blogname" = .string "My edit" ∧
      (componentWillReceiveProps true
        (propsOf siteOne (some serverSettings) editedStore) siteTwoProps editedStore).log =
        [Call.updateFields [("blogdescription", .string "Second tagline"),
          ("lang_id", .undefined), ("blog_public", .undefined), ("timezone_string", .undefined),
          ("jetpack_relatedposts_allowed", .undefined),
          ("jetpack_sync_non_public_post_stati", .undefined), ("amp_is_supported", .undefined),
          ("amp_is_enabled", .undefined)]] := by
  decide

/-- C10, amended: `componentWillReceiveProps` does not re-initialize the form
when the site of the new props differs from the current one. Every dirty field
stays dirty; the calls made contain no `clearDirtyFields` and no `updateFields`
with the blank defaults; every key that is dirty or is not in the FieldSet
derived from the new settings keeps its form value; and when the `settings`
prop is the same object as before, no field and no dirty field changes at all. -/
theorem site_change_no_reset (track : Bool) (props nextProps : Props) (st : Store)
    (hsite : props.site ≠ nextProps.site) :
    (∀ k ∈ st.dirtyFields,
        k ∈ (componentWillReceiveProps track props nextProps st).dirtyFields) ∧
      (∃ calls, (componentWillReceiveProps track props nextProps st).log = st.log ++ calls ∧
        Call.clearDirtyFields ∉ calls ∧ Call.updateFields defaultFields ∉ calls) ∧
      (∀ k, (k ∈ nextProps.dirtyFields ∨
          Obj.has (getFormSettings (settingsObj nextProps.settings)) k = false) →
        Obj.get (componentWillReceiveProps track props nextProps st).fields k =
          Obj.get st.fields k) ∧
      (strictNe nextProps.settings props.settings = false →
        (componentWillReceiveProps track props nextProps st).fields = st.fields ∧
        (componentWillReceiveProps track props nextProps st).dirtyFields = st.dirtyFields) := by
  have _ := hsite
  refine ⟨?_, ?_, ?_, ?_⟩
  · intro k hk
    unfold componentWillReceiveProps
    split
    · apply updateFields_dirtyFields_subset
      rw [showWarning_dirtyFields]
      exact hk
    · rw [showWarning_dirtyFields]
      exact hk
  · obtain ⟨w, hw, hwarn⟩ := showWarning_log nextProps.site st
    rw [componentWillReceiveProps_log, hw, List.append_assoc]
    refine ⟨_, rfl, ?_, ?_⟩
    · intro hmem
      rcases List.mem_append.1 hmem with h | h
      · obtain ⟨href, hc⟩ := hwarn _ h
        exact Call.noConfusion hc
      · split at h
        · simp at h
        · simp at h
    · intro hmem
      rcases List.mem_append.1 hmem with h | h
      · obtain ⟨href, hc⟩ := hwarn _ h
        exact Call.noConfusion hc
      · split at h
        · simp only [List.mem_singleton, Call.updateFields.injEq] at h
          exact omit_getFormSettings_ne_defaultFields _ _ h.symm
        · simp at h
  · intro k hk
    rcases hk with hk | hk
    · exact (dirty_keys_kept track props nextProps st k hk)
    · exact (absent_keys_kept track props nextProps st k hk)
  · intro hsame
    unfold componentWillReceiveProps
    rw [hsame]
    simp [showWarning_fields, showWarning_dirtyFields]

/-- Witness of C10, amended: the props of the second site arrive while the
title typed for the first site is unsaved, and the title stays dirty. -/
theorem site_change_no_reset_witness :
    (propsOf siteOne (some serverSettings) editedStore).site ≠ siteTwoProps.site ∧
      ∀ k ∈ editedStore.dirtyFields,
        k ∈ (componentWillReceiveProps true (propsOf siteOne (some serverSettings) editedStore)
          siteTwoProps editedStore).dirtyFields :=
  ⟨by decide,
    (site_change_no_reset true (propsOf siteOne (some serverSettings) editedStore)
      siteTwoProps editedStore (by decide)).1⟩

/-! ## Applying a snapshot twice -/

/-- C11, idempotence of snapshot application: after `componentWillReceiveProps`
has received the settings snapshot of `nextProps`, receiving it a second time
leaves the form fields as the first application left them. This holds when the
second props carry the very same settings object (then the dirty fields are
unchanged as well), and when the snapshot was new at its first application and
comes back as another object with the same content. The dirty fields handed
over the second time contain those handed over the first time: nothing clears
a dirty field between the two applications. -/
theorem snapshot_idempotent (track : Bool) (props nextProps nextProps₂ : Props) (st : Store)
    (hdirty : ∀ k ∈ nextProps.dirtyFields, k ∈ nextProps₂.dirtyFields) :
    (nextProps₂.settings = nextProps.settings →
        (componentWillReceiveProps track nextProps nextProps₂
          (componentWillReceiveProps track props nextProps st)).fields =
          (componentWillReceiveProps track props nextProps st).fields ∧
        (componentWillReceiveProps track nextProps nextProps₂
          (componentWillReceiveProps track props nextProps st)).dirtyFields =
          (componentWillReceiveProps track props nextProps st).dirtyFields) ∧
      (strictNe nextProps.settings props.settings = true →
        settingsObj nextProps₂.settings = settingsObj nextProps.settings →
        (componentWillReceiveProps track nextProps nextProps₂
          (componentWillReceiveProps track props nextProps st)).fields =
          (componentWillReceiveProps track props nextProps st).fields) := by
  constructor
  · intro hsame
    have hno : strictNe nextProps₂.settings nextProps.settings = false := by
      rw [hsame]
      cases nextProps.settings with
      | none => rfl
      | some s => simp [strictNe]
    generalize componentWillReceiveProps track props nextProps st = st₁
    unfold componentWillReceiveProps
    rw [hno]
    simp [showWarning_fields, showWarning_dirtyFields]
  · intro hnew hsame
    rw [componentWillReceiveProps_fields track nextProps nextProps₂]
    split
    · rw [hsame]
      apply Obj.assign_eq_self
      intro p hp
      obtain ⟨hpG, hpD⟩ := (Obj.mem_omit _ _ p).1 hp
      have hpD₁ : p.1 ∉ nextProps.dirtyFields := fun hm => hpD (hdirty _ hm)
      have hG := Obj.get_of_mem _ p.1 p.2 (nodup_getFormSettings _) hpG
      have hU : Obj.has (Obj.omit (getFormSettings (settingsObj nextProps.settings))
          nextProps.dirtyFields) p.1 = true := by
        rw [Obj.has_omit_of_not_mem _ _ _ hpD₁]
        exact hG.1
      rw [componentWillReceiveProps_fields, if_pos hnew]
      refine ⟨Obj.has_assign_of_has _ _ _ hU, ?_⟩
      rw [Obj.get_assign_of_has _ _ _ (Obj.nodup_omit _ _ (nodup_getFormSettings _)) hU,
        Obj.get_omit_of_not_mem _ _ _ hpD₁]
      exact hG.2
    · rfl

/-- Witness of C11: the snapshot of the server arrives, and arrives again as a
new object with the same content; the second application changes no field. -/
theorem snapshot_idempotent_witness :
    (∀ k ∈ (propsOf siteOne (some serverSettings) editedStore).dirtyFields,
        k ∈ (propsOf siteOne (some serverSettingsAgain) editedStore).dirtyFields) ∧
      strictNe (some serverSettings) none = true ∧
      strictNe (some serverSettingsAgain) (some serverSettings) = true ∧
      (componentWillReceiveProps true (propsOf siteOne (some serverSettings) editedStore)
        (propsOf siteOne (some serverSettingsAgain) editedStore)
        (componentWillReceiveProps true (propsOf siteOne none editedStore)
          (propsOf siteOne (some serverSettings) editedStore) editedStore)).fields =
        (componentWillReceiveProps true (propsOf siteOne none editedStore)
          (propsOf siteOne (some serverSettings) editedStore) editedStore).fields :=
  ⟨fun _ hk => hk, by decide, by decide,
    (snapshot_idempotent true (propsOf siteOne none editedStore)
      (propsOf siteOne (some serverSettings) editedStore)
      (propsOf siteOne (some serverSettingsAgain) editedStore) editedStore
      (fun _ hk => hk)).2 (by decide) rfl⟩

/-! ## Initialization on mount -/

theorem nodup_defaultFields : (Obj.keys defaultFields).Nodup := by
  decide

theorem componentWillMount_fields (track : Bool) (props : Props) (st : Store) :
    (componentWillMount track props st).fields =
      Obj.assign (Obj.assign st.fields defaultFields)
        (getFormSettings (settingsObj props.settings)) := by
  simp [componentWillMount, updateFields, clearDirtyFields, showWarning_fields]

theorem componentWillMount_dirtyFields (track : Bool) (props : Props) (st : Store) :
    (componentWillMount track props st).dirtyFields =
      if track then Obj.keys (getFormSettings (settingsObj props.settings)) else [] := by
  cases track <;> simp [componentWillMount, updateFields, clearDirtyFields]

/-- C12, initialization on mount: `componentWillMount` calls `updateFields`
with the blank defaults, then `clearDirtyFields`, then `updateFields` with the
FieldSet derived from the settings. After it every default key that the derived
FieldSet does not set holds its default, and no field is dirty other than keys
of the derived FieldSet. When the settings are `null` the DirtySet is empty,
`blogname`, `blogdescription`, `lang_id`, `timezone_string`, `blog_public` and
`admin_url` hold `''`, and the related-posts, sync, holidaysnow and AMP flags
hold `false`, whatever the form held before. -/
theorem mount_initialization (track : Bool) (props : Props) (st : Store) :
    (∃ warnings, (componentWillMount track props st).log =
        st.log ++ warnings ++ [Call.updateFields defaultFields, Call.clearDirtyFields,
          Call.updateFields (getFormSettings (settingsObj props.settings))] ∧
        ∀ c ∈ warnings, ∃ href, c = Call.noticesWarning href) ∧
      (∀ k, Obj.has defaultFields k = true →
        Obj.has (getFormSettings (settingsObj props.settings)) k = false →
        Obj.get (componentWillMount track props st).fields k = Obj.get defaultFields k) ∧
      (∀ k ∈ (componentWillMount track props st).dirtyFields,
        Obj.has (getFormSettings (settingsObj props.settings)) k = true) ∧
      (props.settings = none →
        (componentWillMount track props st).dirtyFields = [] ∧
        (∀ k ∈ ["blogname", "blogdescription", "lang_id", "timezone_string", "blog_public",
            "admin_url"],
          Obj.get (componentWillMount track props st).fields k = .string "") ∧
        (∀ k ∈ ["jetpack_relatedposts_allowed", "jetpack_relatedposts_enabled",
            "jetpack_relatedposts_show_headline", "jetpack_relatedposts_show_thumbnails",
            "jetpack_sync_non_public_post_stati", "holidaysnow", "amp_is_supported",
            "amp_is_enabled"],
          Obj.get (componentWillMount track props st).fields k = .bool false)) := by
  have hdef : ∀ k, Obj.has defaultFields k = true →
      Obj.has (getFormSettings (settingsObj props.settings)) k = false →
      Obj.get (componentWillMount track props st).fields k = Obj.get defaultFields k := by
    intro k hk hno
    rw [componentWillMount_fields, Obj.get_assign_of_not_has _ _ _ hno,
      Obj.get_assign_of_has _ _ _ nodup_defaultFields hk]
  refine ⟨?_, hdef, ?_, ?_⟩
  · obtain ⟨w, hw, hwarn⟩ := showWarning_log props.site st
    refine ⟨w, ?_, hwarn⟩
    simp [componentWillMount, updateFields, clearDirtyFields, hw]
  · intro k hk
    rw [componentWillMount_dirtyFields] at hk
    cases track with
    | false => simp at hk
    | true =>
      rw [Obj.has_eq_true_iff]
      simpa using hk
  · intro hnone
    have hG : getFormSettings (settingsObj props.settings) = [] := by
      rw [hnone]
      rfl
    refine ⟨?_, ?_, ?_⟩
    · rw [componentWillMount_dirtyFields, hG]
      cases track <;> rfl
    · intro k hk
      have hno : Obj.has (getFormSettings (settingsObj props.settings)) k = false := by
        rw [hG]
        rfl
      simp only [List.mem_cons, List.mem_singleton, List.not_mem_nil, or_false] at hk
      rcases hk with hk | hk | hk | hk | hk | hk
      all_goals subst hk
      all_goals exact (hdef _ (by decide) hno).trans (by decide)
    · intro k hk
      have hno : Obj.has (getFormSettings (settingsObj props.settings)) k = false := by
        rw [hG]
        rfl
      simp only [List.mem_cons, List.mem_singleton, List.not_mem_nil, or_false] at hk
      rcases hk with hk | hk | hk | hk | hk | hk | hk | hk
      all_goals subst hk
      all_goals exact (hdef _ (by decide) hno).trans (by decide)

/-! ## The Holiday Snow display window -/

/-- C13, Holiday Snow display window: for every calendar date and every site
that is not a Jetpack site older than version 4.0, `holidaySnowOption` renders
the option exactly when the date lies from 1 December through 31 December or
from 1 January through 4 January (months are zero-indexed: 11 and 0); on every
date from 5 January through 30 November it returns `null`; and for a Jetpack
site older than 4.0 it returns `null` on every date. -/
theorem holiday_snow_window (fields : Obj) (today : Moment) (site : Site)
    (versionCompare : String → String → Bool) (hdate : today.isCalendarDate = true) :
    ((site.jetpack && versionCompare "4.0" "<") = false →
        ((holidaySnowOption fields today site versionCompare).isSome = true ↔
          (today.month = 11 ∧ 1 ≤ today.day ∧ today.day ≤ 31) ∨
            (today.month = 0 ∧ 1 ≤ today.day ∧ today.day ≤ 4)) ∧
        (((today.month = 0 ∧ 5 ≤ today.day) ∨ (1 ≤ today.month ∧ today.month ≤ 10)) →
          holidaySnowOption fields today site versionCompare = none)) ∧
      ((site.jetpack && versionCompare "4.0" "<") = true →
        holidaySnowOption fields today site versionCompare = none) := by
  obtain ⟨year, month, day⟩ := today
  simp only [Moment.isCalendarDate, Bool.and_eq_true, decide_eq_true_eq] at hdate
  obtain ⟨⟨hm, hd₁⟩, hd₂⟩ := hdate
  have hd₃ : month = 11 → day ≤ 31 := by
    intro h
    subst h
    simpa [daysInMonth] using hd₂
  constructor
  · intro hsite
    have hbefore : Moment.isBefore ⟨year, month, day⟩ ⟨year, 11, 1⟩ = decide (month < 11) := by
      simp only [Moment.isBefore, lt_self_iff_false, decide_False, beq_self_eq_true,
        Bool.true_and, Bool.false_or]
      rw [Bool.eq_iff_iff]
      simp only [Bool.or_eq_true, Bool.and_eq_true, decide_eq_true_eq, beq_iff_eq]
      omega
    have hafter : Moment.isAfter ⟨year, month, day⟩ ⟨year, 0, 4⟩ =
        decide (0 < month ∨ 4 < day) := by
      simp only [Moment.isAfter, Moment.isBefore, lt_self_iff_false, decide_False,
        beq_self_eq_true, Bool.true_and, Bool.false_or]
      rw [Bool.eq_iff_iff]
      simp only [Bool.or_eq_true, Bool.and_eq_true, decide_eq_true_eq, beq_iff_eq]
      omega
    simp only [holidaySnowOption, hsite, Bool.false_eq_true, if_false, hbefore, hafter]
    constructor
    · constructor
      · intro h
        split at h
        · simp at h
        · rename_i hc
          simp only [Bool.and_eq_true, decide_eq_true_eq, not_and, not_or, not_lt] at hc
          omega
      · intro h
        have hc : ¬ ((decide (month < 11) && decide (0 < month ∨ 4 < day)) = true) := by
          simp only [Bool.and_eq_true, decide_eq_true_eq, not_and, not_or, not_lt]
          omega
        rw [if_neg hc]
        rfl
    · intro h
      have hc : (decide (month < 11) && decide (0 < month ∨ 4 < day)) = true := by
        simp only [Bool.and_eq_true, decide_eq_true_eq]
        omega
      rw [if_pos hc]
  · intro hsite
    simp only [holidaySnowOption, hsite, if_true]

/-- Witness of C13: on 25 December and on 4 January the option is rendered for
a WordPress.com site and for a Jetpack 4.3 site; on 5 January it is not; for a
Jetpack 3.9 site it is not rendered even on 25 December. -/
theorem holiday_snow_window_witness :
    (holidaySnowOption cleanStore.fields ⟨2016, 11, 25⟩ siteOne newVersionCompare).isSome =
        true ∧
      (holidaySnowOption cleanStore.fields ⟨2017, 0, 4⟩ jetpackSite newVersionCompare).isSome =
        true ∧
      holidaySnowOption cleanStore.fields ⟨2017, 0, 5⟩ siteOne newVersionCompare = none ∧
      holidaySnowOption cleanStore.fields ⟨2016, 11, 25⟩ jetpackSite oldVersionCompare =
        none :=
  ⟨((holiday_snow_window cleanStore.fields ⟨2016, 11, 25⟩ siteOne newVersionCompare
      (by decide)).1 (by decide)).1.2 (Or.inl (by decide)),
    ((holiday_snow_window cleanStore.fields ⟨2017, 0, 4⟩ jetpackSite newVersionCompare
      (by decide)).1 (by decide)).1.2 (Or.inr (by decide)),
    ((holiday_snow_window cleanStore.fields ⟨2017, 0, 5⟩ siteOne newVersionCompare
      (by decide)).1 (by decide)).2 (Or.inl (by decide)),
    (holiday_snow_window cleanStore.fields ⟨2016, 11, 25⟩ jetpackSite oldVersionCompare
      (by decide)).2 (by decide)⟩

end SiteSettings
